import Mathlib

/-!
Shallow embedding of the rn-expo-ts-app repository (React Native + Expo +
TypeScript greeting example).

Source files embedded:
- src/src/components/Greeting.tsx: the Greeting component.  It reads the
  system clock year (`new Date().getFullYear()`) at render time; in the
  embedding that clock reading is an explicit parameter `currentYear`.
- src/App.tsx: the App root, which renders `<Greeting name="Jane"
  birthYear={1995} />` together with a StatusBar inside a container View.

The rendered output is modelled as a small view tree (containers, text
nodes, the status bar); the visible text lines are extracted in render
order.  JSX text interpolation such as `Hello, {name}` becomes string
concatenation, exactly as the framework renders it.
-/

/-- A node of the rendered view tree: a container `View` with children, a
`Text` node carrying its visible string, or the Expo `StatusBar` (which
renders no visible text line). -/
inductive Node where
  | view : List Node → Node
  | text : String → Node
  | statusBar : Node

/-- Props of the Greeting component, from `interface GreetingProps` in
src/src/components/Greeting.tsx: `name : string`, `birthYear : number`
(used only as an integer year). -/
structure GreetingProps where
  name : String
  birthYear : Int
deriving Repr, DecidableEq

/-- The Greeting component (src/src/components/Greeting.tsx).
`currentYear` stands for `new Date().getFullYear()`, the system clock year
read at render time; `age := currentYear - birthYear` as on line 11.  The
three `Text` children render, in order:
`Hello, {name}`, `Nice to meet you!`, and
`Now {currentYear} and you become {age} years old.` -/
def Greeting (props : GreetingProps) (currentYear : Int) : Node :=
  let age : Int := currentYear - props.birthYear
  Node.view
    [ Node.text ("Hello, " ++ props.name),
      Node.text "Nice to meet you!",
      Node.text ("Now " ++ toString currentYear ++ " and you become " ++
        toString age ++ " years old.") ]

/-- The App root (src/App.tsx): renders `<Greeting name="Jane"
birthYear={1995} />` and `<StatusBar style="light" />` inside the
container View. -/
def App (currentYear : Int) : Node :=
  Node.view [ Greeting ⟨"Jane", 1995⟩ currentYear, Node.statusBar ]

mutual

/-- The visible text lines of a rendered node, in render order. -/
def Node.textLines : Node → List String
  | Node.view children => textLinesOfList children
  | Node.text s => [s]
  | Node.statusBar => []

/-- The visible text lines of a list of sibling nodes, in order. -/
def textLinesOfList : List Node → List String
  | [] => []
  | n :: ns => n.textLines ++ textLinesOfList ns

end

/-- The text lines produced by one render pass of the Greeting component
with the given props and system clock year. -/
def greetingLines (props : GreetingProps) (currentYear : Int) : List String :=
  (Greeting props currentYear).textLines

/-- The text lines produced by one render pass of the App root with the
given system clock year. -/
def appLines (currentYear : Int) : List String :=
  (App currentYear).textLines

/-- C1: for every name and birthYear, the age rendered by the Greeting
View equals currentYear - birthYear, where currentYear is the clock value
read at render time: the third rendered line embeds exactly
toString (currentYear - birthYear). -/
theorem greeting_rendered_age_eq_currentYear_sub_birthYear
    (props : GreetingProps) (currentYear : Int) :
    (greetingLines props currentYear).get? 2 =
      some ("Now " ++ toString currentYear ++ " and you become " ++
        toString (currentYear - props.birthYear) ++ " years old.") := rfl

/-- C2: with name="Jane", birthYear=1995 and system year 2024, the
Greeting View produces exactly the three lines "Hello, Jane",
"Nice to meet you!", "Now 2024 and you become 29 years old.". -/
theorem greeting_scenario_jane_1995_2024 :
    greetingLines ⟨"Jane", 1995⟩ 2024 =
      ["Hello, Jane", "Nice to meet you!",
       "Now 2024 and you become 29 years old."] := by decide

/-- C3: rendering the Greeting View twice with the same props and the same
current year produces identical text output. -/
theorem greeting_render_idempotent_same_year
    (p₁ p₂ : GreetingProps) (y₁ y₂ : Int)
    (hp : p₁ = p₂) (hy : y₁ = y₂) :
    greetingLines p₁ y₁ = greetingLines p₂ y₂ := by
  rw [hp, hy]

/-- C3 witness: two renders with name "Jane", birthYear 1995 and year 2024
agree. -/
theorem greeting_render_idempotent_same_year_witness :
    greetingLines ⟨"Jane", 1995⟩ 2024 = greetingLines ⟨"Jane", 1995⟩ 2024 :=
  greeting_render_idempotent_same_year ⟨"Jane", 1995⟩ ⟨"Jane", 1995⟩
    2024 2024 rfl rfl

/-- C4: for every birthYear strictly greater than the current year, the
computed age is negative, and the Greeting View still renders the usual
three lines with that negative age embedded — a total function, no error
and no special-casing of the negative value. -/
theorem greeting_future_birthYear_negative_age
    (props : GreetingProps) (currentYear : Int)
    (h : currentYear < props.birthYear) :
    currentYear - props.birthYear < 0 ∧
    greetingLines props currentYear =
      ["Hello, " ++ props.name, "Nice to meet you!",
       "Now " ++ toString currentYear ++ " and you become " ++
         toString (currentYear - props.birthYear) ++ " years old."] :=
  ⟨by omega, rfl⟩

/-- C4 witness: name "Sam", birthYear 2030, year 2024 gives age -6,
rendered in the unchanged three-line shape. -/
theorem greeting_future_birthYear_negative_age_witness :
    (2024 : Int) < 2030 ∧
    ((2024 : Int) - 2030 < 0 ∧
     greetingLines ⟨"Sam", 2030⟩ 2024 =
       ["Hello, " ++ "Sam", "Nice to meet you!",
        "Now " ++ toString (2024 : Int) ++ " and you become " ++
          toString ((2024 : Int) - 2030) ++ " years old."]) :=
  ⟨by decide,
   greeting_future_birthYear_negative_age ⟨"Sam", 2030⟩ 2024 (by decide)⟩

/-- C5: when birthYear equals the current year the computed age is 0, and
the Greeting View renders the age line with 0, without error. -/
theorem greeting_birthYear_eq_currentYear_age_zero
    (props : GreetingProps) (currentYear : Int)
    (h : props.birthYear = currentYear) :
    currentYear - props.birthYear = 0 ∧
    (greetingLines props currentYear).get? 2 =
      some ("Now " ++ toString currentYear ++ " and you become " ++
        toString (currentYear - props.birthYear) ++ " years old.") :=
  ⟨by omega, rfl⟩

/-- C5 witness: birthYear 2024 with system year 2024 renders age 0: the
third line is exactly "Now 2024 and you become 0 years old.". -/
theorem greeting_birthYear_eq_currentYear_age_zero_witness :
    ((2024 : Int) - 2024 = 0 ∧
     (greetingLines ⟨"Jane", 2024⟩ 2024).get? 2 =
       some ("Now " ++ toString (2024 : Int) ++ " and you become " ++
         toString ((2024 : Int) - 2024) ++ " years old.")) ∧
    (greetingLines ⟨"Jane", 2024⟩ 2024).get? 2 =
      some "Now 2024 and you become 0 years old." :=
  ⟨greeting_birthYear_eq_currentYear_age_zero ⟨"Jane", 2024⟩ 2024 rfl,
   by decide⟩

/-- C6: with name="" (empty), birthYear=2000 and system year 2024, the
first line is "Hello, " with the empty name embedded verbatim and the age
line shows 24. -/
theorem greeting_scenario_empty_name_2000_2024 :
    greetingLines ⟨"", 2000⟩ 2024 =
      ["Hello, ", "Nice to meet you!",
       "Now 2024 and you become 24 years old."] := by decide

/-- C7: on every render the App root constructs the fixed input
name="Jane", birthYear=1995 and renders the Greeting View with exactly
those two values (alongside the status bar, in the container view). -/
theorem app_renders_greeting_with_fixed_props (currentYear : Int) :
    App currentYear =
      Node.view [ Greeting ⟨"Jane", 1995⟩ currentYear, Node.statusBar ] := rfl

/-- C8: for every input the Greeting View outputs exactly three text
lines: a greeting embedding name, the fixed input-independent pleasantry
"Nice to meet you!", and a sentence embedding both currentYear and age. -/
theorem greeting_output_exactly_three_lines
    (props : GreetingProps) (currentYear : Int) :
    greetingLines props currentYear =
      ["Hello, " ++ props.name,
       "Nice to meet you!",
       "Now " ++ toString currentYear ++ " and you become " ++
         toString (currentYear - props.birthYear) ++ " years old."] := rfl

/-- C9: in every rendered output, the year displayed in the third line
minus the age displayed there equals the input birthYear: both come from
the single clock reading of that render pass. -/
theorem greeting_displayed_year_minus_age_eq_birthYear
    (props : GreetingProps) (currentYear : Int) :
    ∃ y a : Int,
      (greetingLines props currentYear).get? 2 =
        some ("Now " ++ toString y ++ " and you become " ++
          toString a ++ " years old.") ∧
      y - a = props.birthYear :=
  ⟨currentYear, currentYear - props.birthYear, rfl, by omega⟩

/-- C10: name influences only the first line and birthYear only the third
line: renders in the same year differing only in name agree on lines two
and three, and renders differing only in birthYear agree on lines one and
two. -/
theorem greeting_noninterference_name_birthYear :
    (∀ (n₁ n₂ : String) (b y : Int),
      (greetingLines ⟨n₁, b⟩ y).get? 1 = (greetingLines ⟨n₂, b⟩ y).get? 1 ∧
      (greetingLines ⟨n₁, b⟩ y).get? 2 = (greetingLines ⟨n₂, b⟩ y).get? 2) ∧
    (∀ (n : String) (b₁ b₂ y : Int),
      (greetingLines ⟨n, b₁⟩ y).get? 0 = (greetingLines ⟨n, b₂⟩ y).get? 0 ∧
      (greetingLines ⟨n, b₁⟩ y).get? 1 = (greetingLines ⟨n, b₂⟩ y).get? 1) :=
  ⟨fun _ _ _ _ => ⟨rfl, rfl⟩, fun _ _ _ _ => ⟨rfl, rfl⟩⟩
